import Mathlib

/-!
Verification of the event-matching and shift-layer routing engine of the
Universal Controller Script.

The definitions below are a shallow embedding of the Python sources:

* `ShiftView`, `ShiftMatcher.matchEvent`, `ShiftMatcher.tick` embed
  `src/control_surfaces/matchers/shift_matcher.py`.
* `pedalCallback` embeds
  `src/plugs/mapping_strategies/pedal_strategy.py`.
* `toPluginIndex` and friends embed `src/plugs/tick_filters/index.py`.

Modelling conventions:

* A decoded MIDI event (`FlMidiMsg`) is opaque to the matcher logic; it is
  modelled by a `Nat` identifier.
* A `ControlSurface.match` call is modelled by the view's `triggerMatch`
  function returning an optional `ControlEvent` (value plus double-press
  flag); sub-matchers (`IControlMatcher.matchEvent`) are modelled by their
  match function returning an opaque token.
* The mutable per-trigger state (`trigger.value`, `trigger.color`) is kept
  in a list parallel to the list of views, and Python object identity of
  the active view is modelled by its index in that list.
* Side effects of `tick` (calls to `trigger.doTick` and to the
  sub-matchers' `tick`) are recorded in an explicit effect log.
-/

namespace UCS

/-- LED color of a control surface.  The repository's `Color` type is an
RGB value with distinguished constants `Color.ENABLED` and
`Color.DISABLED`; only those two constants are written by the shift
matcher, so arbitrary other colors are collapsed into `other`. -/
inductive Color where
  | ENABLED
  | DISABLED
  | other (rgb : Nat)
deriving DecidableEq

/-- Result of a successful `ControlSurface.match` call: the recognized
control event carries the control's new value (0 meaning a lift) and
whether this press completed a double press. -/
structure ControlEvent where
  value : ℚ
  double : Bool
deriving DecidableEq

/-- A decoded MIDI event, opaque to the matcher logic. -/
abbrev Event := Nat

/-- Embedding of `ShiftView.__init__`: the trigger control is represented
by its match function, the sub-matcher by its match function (returning an
opaque token for the matched control), plus the configuration flags.
`triggerIsNull` records `isinstance(view.trigger, NullControl)`, which
`ShiftMatcher.tick` tests before recoloring a trigger. -/
structure ShiftView where
  triggerMatch : Event → Option ControlEvent
  viewMatch : Event → Option Nat
  ignore_single_press : Bool
  disable_in_other_views : Bool
  allow_fallback_match : Bool
  triggerIsNull : Bool

/-- Static configuration of a `ShiftMatcher`: the main view's matcher and
the list of registered shift views. -/
structure ShiftConfig where
  mainMatch : Event → Option Nat
  views : List ShiftView

/-- Mutable state of one view's trigger control (`trigger.value`,
`trigger.color`). -/
structure TriggerState where
  value : ℚ
  color : Color
deriving DecidableEq

/-- Mutable state of a `ShiftMatcher`: `__active_view` (by index into the
view list), `__sustained`, `__changed`, and the trigger controls' state. -/
structure ShiftState where
  activeView : Option Nat
  sustained : Bool
  changed : Bool
  triggers : List TriggerState
deriving DecidableEq

/-- State set up by `ShiftMatcher.__init__`: no active view, not
sustained, and the changed flag set so that the first tick is thorough.
The initial trigger states are those of the externally constructed
trigger controls. -/
def initState (ts : List TriggerState) : ShiftState :=
  { activeView := none, sustained := false, changed := true, triggers := ts }

/-- Replace the element at an index of a trigger-state list by the image
of an update function; out-of-range indices leave the list unchanged.
This models assignment to a trigger control's mutable fields. -/
def modifyAt (f : TriggerState → TriggerState) : Nat → List TriggerState → List TriggerState
  | _, [] => []
  | 0, t :: ts => f t :: ts
  | n + 1, t :: ts => t :: modifyAt f n ts

/-- Result of `ShiftMatcher.matchEvent`, tagged by where the returned
`ControlEvent` came from: a view trigger's own match, the internal
`NullControl` (whose `TruePattern` matches every event), the active
view's sub-matcher, or the main matcher. -/
inductive MatchResult where
  | triggerEvent (viewIdx : Nat) (c : ControlEvent)
  | nullEvent
  | viewEvent (m : Nat)
  | mainEvent (m : Nat)
deriving DecidableEq

/-- The skip test at the top of the trigger-scanning loop of
`ShiftMatcher.matchEvent`:
`self.__active_view is not None and self.__active_view is not view and
view.disable_in_other_views`. -/
def skipView (st : ShiftState) (i : Nat) (v : ShiftView) : Bool :=
  st.activeView.isSome && st.activeView != some i && v.disable_in_other_views

/-- The body of the trigger-scanning loop of `ShiftMatcher.matchEvent`
once `view.trigger.match(event)` has returned a control event `c` for the
view at index `i`: lifts deactivate or de-sustain the active view,
presses on the active view are swallowed by the null control, double
presses open the view sustained, and single presses open the view unless
`ignore_single_press` is set. -/
def handleTrigger (st : ShiftState) (i : Nat) (v : ShiftView) (c : ControlEvent) :
    MatchResult × ShiftState :=
  if c.value = 0 then
    if st.activeView = some i then
      if st.sustained then
        (MatchResult.triggerEvent i c,
         { st with
            sustained := false,
            triggers := modifyAt (fun t => { t with value := 1, color := Color.ENABLED })
              i st.triggers })
      else
        (MatchResult.triggerEvent i c,
         { st with
            changed := true,
            activeView := none,
            triggers := modifyAt (fun t => { t with color := Color.DISABLED }) i st.triggers })
    else
      (MatchResult.triggerEvent i c, st)
  else if st.activeView = some i then
    (MatchResult.nullEvent, st)
  else if c.double then
    (MatchResult.triggerEvent i c,
     { st with
        sustained := true,
        activeView := some i,
        changed := true,
        triggers := modifyAt (fun t => { t with color := Color.ENABLED }) i st.triggers })
  else if v.ignore_single_press then
    (MatchResult.triggerEvent i c, st)
  else
    (MatchResult.triggerEvent i c,
     { st with
        activeView := some i,
        changed := true,
        triggers := modifyAt (fun t => { t with color := Color.ENABLED }) i st.triggers })

/-- The trigger-scanning loop of `ShiftMatcher.matchEvent`, iterating the
remaining views with their indices: skipped or non-matching views fall
through to the next view; a view whose trigger matches returns out of the
loop via `handleTrigger`; loop completion yields `none`. -/
def matchLoop (st : ShiftState) (e : Event) : Nat → List ShiftView → Option (MatchResult × ShiftState)
  | _, [] => none
  | i, v :: rest =>
    if skipView st i v then
      matchLoop st e (i + 1) rest
    else
      match v.triggerMatch e with
      | some c => some (handleTrigger st i v c)
      | none => matchLoop st e (i + 1) rest

/-- The `allow_fallback_match` flag consulted by the fallback branch of
`ShiftMatcher.matchEvent`.  After the Python `for` loop completes, the
loop variable `view` holds the LAST element of `self.__views`, so the
code reads the last registered view's flag, not the active view's.  The
`none` case is unreachable there (a view can only be active when the view
list is nonempty). -/
def lastAllowsFallback (cfg : ShiftConfig) : Bool :=
  match cfg.views.getLast? with
  | some v => v.allow_fallback_match
  | none => true

/-- The code of `ShiftMatcher.matchEvent` after the trigger-scanning loop
has completed without returning: with a view active, try the active
view's sub-matcher and then (depending on `lastAllowsFallback`) the main
matcher; with no view active, go straight to the main matcher.  None of
these branches mutates the matcher state. -/
def fallbackMatch (cfg : ShiftConfig) (st : ShiftState) (e : Event) :
    Option MatchResult × ShiftState :=
  match st.activeView with
  | some a =>
    match cfg.views[a]? with
    | some av =>
      match av.viewMatch e with
      | some m => (some (MatchResult.viewEvent m), st)
      | none =>
        if lastAllowsFallback cfg then
          match cfg.mainMatch e with
          | some m => (some (MatchResult.mainEvent m), st)
          | none => (none, st)
        else
          (none, st)
    | none => (none, st)
  | none =>
    match cfg.mainMatch e with
    | some m => (some (MatchResult.mainEvent m), st)
    | none => (none, st)

/-- Embedding of `ShiftMatcher.matchEvent`: scan the views for a trigger
match; on loop completion fall through to `fallbackMatch`.  Returns the
optional match result together with the updated matcher state. -/
def ShiftMatcher.matchEvent (cfg : ShiftConfig) (st : ShiftState) (e : Event) :
    Option MatchResult × ShiftState :=
  match matchLoop st e 0 cfg.views with
  | some (r, st') => (some r, st')
  | none => fallbackMatch cfg st e

/-- Which sub-matcher received the `tick` call at the end of
`ShiftMatcher.tick`: the main matcher or the active view's sub-matcher. -/
inductive SubTicked where
  | main
  | view (i : Nat)
deriving DecidableEq

/-- Effect log of one `ShiftMatcher.tick` call: the `doTick` calls made on
view triggers (view index paired with the thorough flag, in loop order),
the one sub-matcher that was ticked, and the thorough flag passed to it. -/
structure TickLog where
  triggerTicks : List (Nat × Bool)
  sub : SubTicked
  subThorough : Bool
deriving DecidableEq

/-- The skip test of the trigger loop in `ShiftMatcher.tick`:
`self.__active_view is not view and view.disable_in_other_views`.
Unlike `skipView` it also skips when no view is active. -/
def tickSkip (active : Option Nat) (i : Nat) (v : ShiftView) : Bool :=
  active != some i && v.disable_in_other_views

/-- The trigger loop of `ShiftMatcher.tick`: for each non-skipped view,
recolor its trigger if it is a `NullControl` (enabled when active,
disabled otherwise) and call `doTick` on it, recording the call in the
log. -/
def tickLoop (active : Option Nat) (th : Bool) :
    Nat → List ShiftView → List TriggerState → List TriggerState × List (Nat × Bool)
  | _, [], ts => (ts, [])
  | i, v :: rest, ts =>
    if tickSkip active i v then
      tickLoop active th (i + 1) rest ts
    else
      let ts1 :=
        if v.triggerIsNull then
          modifyAt
            (fun t =>
              { t with color := if active = some i then Color.ENABLED else Color.DISABLED })
            i ts
        else ts
      let r := tickLoop active th (i + 1) rest ts1
      (r.1, (i, th) :: r.2)

/-- Embedding of `ShiftMatcher.tick`: when the changed flag is set,
upgrade the tick to a thorough one and clear the flag; run the trigger
loop; then tick exactly one sub-matcher — the active view's if a view is
active, the main matcher otherwise. -/
def ShiftMatcher.tick (cfg : ShiftConfig) (st : ShiftState) (thorough : Bool) :
    ShiftState × TickLog :=
  let th := if st.changed then true else thorough
  let st1 := if st.changed then { st with changed := false } else st
  let r := tickLoop st1.activeView th 0 cfg.views st1.triggers
  let sub : SubTicked :=
    match st1.activeView with
    | none => SubTicked.main
    | some a => SubTicked.view a
  ({ st1 with triggers := r.1 }, { triggerTicks := r.2, sub := sub, subThorough := th })

/-!
Embedding of `src/plugs/mapping_strategies/pedal_strategy.py`.
-/

/-- The concrete pedal type passed to `pedalCallback` as `t_ped`: one of
the three recognized `Pedal` subclasses, or any other pedal type. -/
inductive PedalType where
  | SustainPedal
  | SostenutoPedal
  | SoftPedal
  | otherPedal
deriving DecidableEq

/-- Exceptions `pedalCallback` can raise. -/
inductive PedalError where
  | typeError
  | notImplementedError
deriving DecidableEq

/-- A `PluginIndex` is a tuple of ints: `(group,)` for a generator or
`(group, slot)` for an effect. -/
abbrev PluginIndex := List Int

/-- One `plugins.setParamValue(value, paramIndex, *index)` call recorded
by the embedding of `pedalCallback`. -/
structure ParamWrite where
  value : ℚ
  paramIndex : Nat
  index : PluginIndex
deriving DecidableEq

/-- Modelled from the spec: `common.consts.PARAM_CC_START` is not under
`src/`; it is the offset of MIDI CC parameters in a VST's parameter
list. -/
def PARAM_CC_START : Nat := 4096

/-- Modelled from the spec: the CC number constants of
`control_surfaces.controls.pedal` are not under `src/`; they are the
standard MIDI CC numbers of the three pedals. -/
def SUSTAIN : Nat := 64

/-- Modelled from the spec: see `SUSTAIN`. -/
def SOSTENUTO : Nat := 66

/-- Modelled from the spec: see `SUSTAIN`. -/
def SOFT : Nat := 67

/-- Embedding of `PedalStrategy.pedalCallback`.  `raiseOnError` is the
strategy's `raise_on_error` construction flag; `isVst` abstracts the host
query `isPluginVst` (its implementation calls the FL Studio API and is
outside this repository); `value` is `control.value`.  The result is
either a raised exception or the returned Bool together with the list of
`setParamValue` calls performed. -/
def pedalCallback (raiseOnError : Bool) (isVst : PluginIndex → Bool) (value : ℚ)
    (index : PluginIndex) (t_ped : PedalType) : Except PedalError (Bool × List ParamWrite) :=
  if !isVst index then
    if raiseOnError then
      Except.error PedalError.typeError
    else
      Except.ok (false, [])
  else
    match t_ped with
    | PedalType.SustainPedal =>
      Except.ok (true, [{ value := value, paramIndex := PARAM_CC_START + SUSTAIN, index := index }])
    | PedalType.SostenutoPedal =>
      Except.ok (true,
        [{ value := value, paramIndex := PARAM_CC_START + SOSTENUTO, index := index }])
    | PedalType.SoftPedal =>
      Except.ok (true, [{ value := value, paramIndex := PARAM_CC_START + SOFT, index := index }])
    | PedalType.otherPedal => Except.error PedalError.notImplementedError

/-!
Embedding of `src/plugs/tick_filters/index.py`.
-/

/-- An `UnsafeIndex` as received by an index filter: `None`, a window
index (a plain int), or a plugin index (a tuple of ints; the type admits
tuples of any length, the filters discriminate on the length). -/
inductive UnsafeIndex where
  | none
  | window (i : Int)
  | tup (elems : List Int)
deriving DecidableEq

/-- Filter predicate of `toPluginIndex`: `isinstance(index, tuple)`. -/
def toPluginIndex (idx : UnsafeIndex) : Bool :=
  match idx with
  | UnsafeIndex.tup _ => true
  | _ => false

/-- Filter predicate of `toGeneratorIndex`:
`isinstance(index, tuple) and len(index) == 1`. -/
def toGeneratorIndex (idx : UnsafeIndex) : Bool :=
  match idx with
  | UnsafeIndex.tup l => l.length == 1
  | _ => false

/-- Filter predicate of `toEffectIndex`:
`isinstance(index, tuple) and len(index) == 2`. -/
def toEffectIndex (idx : UnsafeIndex) : Bool :=
  match idx with
  | UnsafeIndex.tup l => l.length == 2
  | _ => false

/-- Filter predicate of `toWindowIndex`: `isinstance(index, int)`. -/
def toWindowIndex (idx : UnsafeIndex) : Bool :=
  match idx with
  | UnsafeIndex.window _ => true
  | _ => false

/-- Filter predicate of `toSafeIndex`: `index is not None`. -/
def toSafeIndex (idx : UnsafeIndex) : Bool :=
  match idx with
  | UnsafeIndex.none => false
  | _ => true

/-- Modelled from the spec: `plugs.tick_filters.decorator.do_filter` is
not under `src/`.  Per the spec (guard predicates evaluated before
invoking a bound callback) and `tests/filter_test.py`, the decorated
callback is invoked exactly when the filter predicate holds for the
supplied index; otherwise the call is filtered out and the callback never
runs. -/
def do_filter (pred : UnsafeIndex → Bool) (callback : UnsafeIndex → Option Nat)
    (idx : UnsafeIndex) : Option Nat :=
  if pred idx then callback idx else Option.none

/-!
The state invariant of the shift matcher and the reachable states.
-/

/-- The documented invariant of the `ShiftMatcher` state, relative to its
configuration: at most one view is active (the single optional
`activeView`, which moreover indexes a registered view), `sustained`
implies an active view, and there is one trigger state per view. -/
def Inv (cfg : ShiftConfig) (st : ShiftState) : Prop :=
  (∀ i, st.activeView = some i → i < cfg.views.length) ∧
  (st.sustained = true → st.activeView ≠ none) ∧
  st.triggers.length = cfg.views.length

/-- The states reachable from a freshly constructed `ShiftMatcher` by any
sequence of `matchEvent` and `tick` calls. -/
inductive Reachable (cfg : ShiftConfig) : ShiftState → Prop where
  | init (ts : List TriggerState) (h : ts.length = cfg.views.length) :
      Reachable cfg (initState ts)
  | matchStep (st : ShiftState) (e : Event) :
      Reachable cfg st → Reachable cfg (ShiftMatcher.matchEvent cfg st e).2
  | tickStep (st : ShiftState) (th : Bool) :
      Reachable cfg st → Reachable cfg (ShiftMatcher.tick cfg st th).1

/-!
Concrete configurations used to instantiate the general theorems.
-/

/-- A view whose trigger and sub-matcher match nothing. -/
def view4 : ShiftView :=
  { triggerMatch := fun _ => none, viewMatch := fun _ => none,
    ignore_single_press := false, disable_in_other_views := false,
    allow_fallback_match := true, triggerIsNull := false }

/-- A one-view configuration with an empty main matcher. -/
def cfg4 : ShiftConfig := { mainMatch := fun _ => none, views := [view4] }

/-- Initial trigger states for a one-view configuration. -/
def ts4 : List TriggerState := [{ value := 0, color := Color.DISABLED }]

/-- A view whose trigger reports a double press on event 10, a lift on
event 11 and a single press on event 12. -/
def vA : ShiftView :=
  { triggerMatch := fun e =>
      if e = 10 then some { value := 1, double := true }
      else if e = 11 then some { value := 0, double := false }
      else if e = 12 then some { value := 1, double := false }
      else none,
    viewMatch := fun _ => none,
    ignore_single_press := false, disable_in_other_views := false,
    allow_fallback_match := true, triggerIsNull := false }

/-- One-view configuration around `vA`. -/
def cfgA : ShiftConfig := { mainMatch := fun _ => none, views := [vA] }

/-- State of `cfgA` in which view 0 is active and not sustained. -/
def stA2 : ShiftState :=
  { activeView := some 0, sustained := false, changed := false,
    triggers := [{ value := 1, color := Color.ENABLED }] }

/-- A view that is the active one in the `cfgB` scenario. -/
def vB0 : ShiftView :=
  { triggerMatch := fun e => if e = 30 then some { value := 1, double := false } else none,
    viewMatch := fun _ => none,
    ignore_single_press := false, disable_in_other_views := false,
    allow_fallback_match := true, triggerIsNull := false }

/-- A view with `disable_in_other_views` whose trigger matches event 31. -/
def vB1 : ShiftView :=
  { triggerMatch := fun e => if e = 31 then some { value := 1, double := false } else none,
    viewMatch := fun _ => none,
    ignore_single_press := false, disable_in_other_views := true,
    allow_fallback_match := true, triggerIsNull := false }

/-- Two-view configuration in which the second view is disabled while
another view is active. -/
def cfgB : ShiftConfig := { mainMatch := fun _ => none, views := [vB0, vB1] }

/-- State of `cfgB` in which view 0 is active. -/
def stB : ShiftState :=
  { activeView := some 0, sustained := false, changed := false,
    triggers := [{ value := 1, color := Color.ENABLED }, { value := 0, color := Color.DISABLED }] }

/-- A view with `ignore_single_press` whose trigger matches event 40. -/
def vC : ShiftView :=
  { triggerMatch := fun e => if e = 40 then some { value := 1, double := false } else none,
    viewMatch := fun _ => none,
    ignore_single_press := true, disable_in_other_views := false,
    allow_fallback_match := true, triggerIsNull := false }

/-- One-view configuration around `vC`. -/
def cfgC : ShiftConfig := { mainMatch := fun _ => none, views := [vC] }

/-- First view of the fallback scenario: fallback matching disabled. -/
def vD0 : ShiftView :=
  { triggerMatch := fun e => if e = 50 then some { value := 1, double := false } else none,
    viewMatch := fun _ => none,
    ignore_single_press := false, disable_in_other_views := false,
    allow_fallback_match := false, triggerIsNull := false }

/-- Second view of the fallback scenario: fallback matching allowed. -/
def vD1 : ShiftView :=
  { triggerMatch := fun _ => none, viewMatch := fun _ => none,
    ignore_single_press := false, disable_in_other_views := false,
    allow_fallback_match := true, triggerIsNull := false }

/-- Two views with differing `allow_fallback_match`, and a main matcher
that matches event 99. -/
def cfgD : ShiftConfig :=
  { mainMatch := fun e => if e = 99 then some 7 else none, views := [vD0, vD1] }

/-- State of `cfgD` in which view 0 (the one forbidding fallback) is the
active view. -/
def stD : ShiftState :=
  { activeView := some 0, sustained := false, changed := false,
    triggers := [{ value := 1, color := Color.ENABLED }, { value := 0, color := Color.DISABLED }] }

/-- A view with `disable_in_other_views` set, used to show that its
trigger is skipped by `tick` while it is not active. -/
def vE : ShiftView :=
  { triggerMatch := fun _ => none, viewMatch := fun _ => none,
    ignore_single_press := false, disable_in_other_views := true,
    allow_fallback_match := true, triggerIsNull := true }

/-- One-view configuration around `vE`. -/
def cfgE : ShiftConfig := { mainMatch := fun _ => none, views := [vE] }

/-- Dirty state of `cfgE` with no active view. -/
def stE : ShiftState :=
  { activeView := none, sustained := false, changed := true,
    triggers := [{ value := 0, color := Color.DISABLED }] }

/-!
Helper lemmas about the embedding.
-/

theorem modifyAt_length (f : TriggerState → TriggerState) :
    ∀ (i : Nat) (ts : List TriggerState), (modifyAt f i ts).length = ts.length := by
  intro i
  induction i with
  | zero => intro ts; cases ts <;> rfl
  | succ n ih =>
    intro ts
    cases ts with
    | nil => rfl
    | cons t ts => simp [modifyAt, ih]

theorem getElem?_modifyAt_self (f : TriggerState → TriggerState) :
    ∀ (i : Nat) (ts : List TriggerState), (modifyAt f i ts)[i]? = (ts[i]?).map f := by
  intro i
  induction i with
  | zero => intro ts; cases ts <;> simp [modifyAt]
  | succ n ih =>
    intro ts
    cases ts with
    | nil => rfl
    | cons t ts => simpa [modifyAt] using ih ts

theorem matchLoop_append (st : ShiftState) (e : Event) (pre rest : List ShiftView)
    (h : ∀ v ∈ pre, v.triggerMatch e = none) :
    ∀ i : Nat, matchLoop st e i (pre ++ rest) = matchLoop st e (i + pre.length) rest := by
  induction pre with
  | nil => intro i; simp [matchLoop]
  | cons v vs ih =>
    intro i
    have hv : v.triggerMatch e = none := h v (by simp)
    have hvs : ∀ w ∈ vs, w.triggerMatch e = none := fun w hw => h w (by simp [hw])
    simp only [List.cons_append, matchLoop, hv]
    have harith : i + 1 + vs.length = i + (vs.length + 1) := by omega
    by_cases hs : skipView st i v = true <;>
      simp [hs, ih hvs (i + 1), harith]

theorem matchLoop_none_of_nomatch (st : ShiftState) (e : Event) (l : List ShiftView)
    (h : ∀ v ∈ l, v.triggerMatch e = none) :
    ∀ i : Nat, matchLoop st e i l = none := by
  induction l with
  | nil => intro i; rfl
  | cons v vs ih =>
    intro i
    have hv : v.triggerMatch e = none := h v (by simp)
    have hvs : ∀ w ∈ vs, w.triggerMatch e = none := fun w hw => h w (by simp [hw])
    simp only [matchLoop, hv]
    by_cases hs : skipView st i v = true <;> simp [hs, ih hvs (i + 1)]

theorem matchLoop_cons_skip (st : ShiftState) (e : Event) (i : Nat) (v : ShiftView)
    (rest : List ShiftView) (hs : skipView st i v = true) :
    matchLoop st e i (v :: rest) = matchLoop st e (i + 1) rest := by
  simp [matchLoop, hs]

theorem matchLoop_cons_claim (st : ShiftState) (e : Event) (i : Nat) (v : ShiftView)
    (rest : List ShiftView) (c : ControlEvent) (hs : skipView st i v = false)
    (hm : v.triggerMatch e = some c) :
    matchLoop st e i (v :: rest) = some (handleTrigger st i v c) := by
  simp [matchLoop, hs, hm]

theorem matchEvent_of_claim (cfg : ShiftConfig) (st : ShiftState) (e : Event)
    (pre post : List ShiftView) (v : ShiftView) (c : ControlEvent)
    (hviews : cfg.views = pre ++ v :: post)
    (hpre : ∀ w ∈ pre, w.triggerMatch e = none)
    (hs : skipView st pre.length v = false)
    (hm : v.triggerMatch e = some c) :
    ShiftMatcher.matchEvent cfg st e =
      (some (handleTrigger st pre.length v c).1, (handleTrigger st pre.length v c).2) := by
  have hloop : matchLoop st e 0 cfg.views = some (handleTrigger st pre.length v c) := by
    rw [hviews, matchLoop_append st e pre (v :: post) hpre 0]
    simpa using matchLoop_cons_claim st e pre.length v post c hs hm
  unfold ShiftMatcher.matchEvent
  rw [hloop]

theorem fallbackMatch_snd (cfg : ShiftConfig) (st : ShiftState) (e : Event) :
    (fallbackMatch cfg st e).2 = st := by
  unfold fallbackMatch
  repeat' split
  all_goals rfl

theorem matchEvent_snd_of_loop_none (cfg : ShiftConfig) (st : ShiftState) (e : Event)
    (h : matchLoop st e 0 cfg.views = none) :
    (ShiftMatcher.matchEvent cfg st e).2 = st := by
  unfold ShiftMatcher.matchEvent
  rw [h]
  exact fallbackMatch_snd cfg st e

theorem handleTrigger_lift_desustain (st : ShiftState) (i : Nat) (v : ShiftView)
    (c : ControlEvent) (h0 : c.value = 0) (ha : st.activeView = some i)
    (hs : st.sustained = true) :
    handleTrigger st i v c =
      (MatchResult.triggerEvent i c,
       { st with
          sustained := false,
          triggers := modifyAt (fun t => { t with value := 1, color := Color.ENABLED })
            i st.triggers }) := by
  unfold handleTrigger
  simp [h0, ha, hs]

theorem handleTrigger_lift_close (st : ShiftState) (i : Nat) (v : ShiftView)
    (c : ControlEvent) (h0 : c.value = 0) (ha : st.activeView = some i)
    (hs : st.sustained = false) :
    handleTrigger st i v c =
      (MatchResult.triggerEvent i c,
       { st with
          changed := true,
          activeView := none,
          triggers := modifyAt (fun t => { t with color := Color.DISABLED }) i st.triggers }) := by
  unfold handleTrigger
  simp [h0, ha, hs]

theorem handleTrigger_lift_other (st : ShiftState) (i : Nat) (v : ShiftView)
    (c : ControlEvent) (h0 : c.value = 0) (ha : st.activeView ≠ some i) :
    handleTrigger st i v c = (MatchResult.triggerEvent i c, st) := by
  unfold handleTrigger
  simp [h0, ha]

theorem handleTrigger_null (st : ShiftState) (i : Nat) (v : ShiftView)
    (c : ControlEvent) (h0 : c.value ≠ 0) (ha : st.activeView = some i) :
    handleTrigger st i v c = (MatchResult.nullEvent, st) := by
  unfold handleTrigger
  simp [h0, ha]

theorem handleTrigger_double (st : ShiftState) (i : Nat) (v : ShiftView)
    (c : ControlEvent) (h0 : c.value ≠ 0) (ha : st.activeView ≠ some i)
    (hd : c.double = true) :
    handleTrigger st i v c =
      (MatchResult.triggerEvent i c,
       { st with
          sustained := true,
          activeView := some i,
          changed := true,
          triggers := modifyAt (fun t => { t with color := Color.ENABLED }) i st.triggers }) := by
  unfold handleTrigger
  simp [h0, ha, hd]

theorem handleTrigger_ignore (st : ShiftState) (i : Nat) (v : ShiftView)
    (c : ControlEvent) (h0 : c.value ≠ 0) (ha : st.activeView ≠ some i)
    (hd : c.double = false) (hi : v.ignore_single_press = true) :
    handleTrigger st i v c = (MatchResult.triggerEvent i c, st) := by
  unfold handleTrigger
  simp [h0, ha, hd, hi]

theorem handleTrigger_open (st : ShiftState) (i : Nat) (v : ShiftView)
    (c : ControlEvent) (h0 : c.value ≠ 0) (ha : st.activeView ≠ some i)
    (hd : c.double = false) (hi : v.ignore_single_press = false) :
    handleTrigger st i v c =
      (MatchResult.triggerEvent i c,
       { st with
          activeView := some i,
          changed := true,
          triggers := modifyAt (fun t => { t with color := Color.ENABLED }) i st.triggers }) := by
  unfold handleTrigger
  simp [h0, ha, hd, hi]

/-!
Preservation of the state invariant (claim C4).
-/

theorem handleTrigger_inv (cfg : ShiftConfig) (st : ShiftState) (i : Nat) (v : ShiftView)
    (c : ControlEvent) (hInv : Inv cfg st) (hi : i < cfg.views.length) :
    Inv cfg (handleTrigger st i v c).2 := by
  obtain ⟨hA, hS, hL⟩ := hInv
  unfold handleTrigger
  split_ifs with h0 hact hsus hact2 hdbl hign
  · exact ⟨fun j hj => hA j hj, fun _ => hact ▸ (by simp), by simpa [modifyAt_length] using hL⟩
  · refine ⟨fun j hj => by simp at hj, fun hs => absurd hs hsus, ?_⟩
    simpa [modifyAt_length] using hL
  · exact ⟨hA, hS, hL⟩
  · exact ⟨hA, hS, hL⟩
  · refine ⟨fun j hj => ?_, fun _ => by simp, by simpa [modifyAt_length] using hL⟩
    simp only [Option.some.injEq] at hj
    omega
  · exact ⟨hA, hS, hL⟩
  · refine ⟨fun j hj => ?_, fun _ => by simp, by simpa [modifyAt_length] using hL⟩
    simp only [Option.some.injEq] at hj
    omega

theorem matchLoop_inv (cfg : ShiftConfig) (st : ShiftState) (e : Event) :
    ∀ (l : List ShiftView) (i : Nat) (r : MatchResult) (st' : ShiftState),
      Inv cfg st → i + l.length ≤ cfg.views.length →
      matchLoop st e i l = some (r, st') → Inv cfg st' := by
  intro l
  induction l with
  | nil => intro i r st' _ _ h; simp [matchLoop] at h
  | cons v vs ih =>
    intro i r st' hInv hlen h
    simp only [matchLoop] at h
    by_cases hs : skipView st i v = true
    · rw [if_pos hs] at h
      exact ih (i + 1) r st' hInv (by simp at hlen; omega) h
    · rw [if_neg hs] at h
      cases hm : v.triggerMatch e with
      | none =>
        rw [hm] at h
        exact ih (i + 1) r st' hInv (by simp at hlen; omega) h
      | some c =>
        rw [hm] at h
        simp only [Option.some.injEq] at h
        have hi : i < cfg.views.length := by simp at hlen; omega
        have hInv' := handleTrigger_inv cfg st i v c hInv hi
        have hst : st' = (handleTrigger st i v c).2 := by rw [h]
        rw [hst]
        exact hInv'

theorem matchEvent_inv (cfg : ShiftConfig) (st : ShiftState) (e : Event) (hInv : Inv cfg st) :
    Inv cfg (ShiftMatcher.matchEvent cfg st e).2 := by
  cases hL : matchLoop st e 0 cfg.views with
  | none => rw [matchEvent_snd_of_loop_none cfg st e hL]; exact hInv
  | some p =>
    obtain ⟨r, st'⟩ := p
    have : (ShiftMatcher.matchEvent cfg st e).2 = st' := by
      unfold ShiftMatcher.matchEvent
      rw [hL]
    rw [this]
    exact matchLoop_inv cfg st e cfg.views 0 r st' hInv (by omega) hL

theorem tickLoop_fst_length (active : Option Nat) (th : Bool) :
    ∀ (l : List ShiftView) (i : Nat) (ts : List TriggerState),
      (tickLoop active th i l ts).1.length = ts.length := by
  intro l
  induction l with
  | nil => intro i ts; rfl
  | cons v vs ih =>
    intro i ts
    simp only [tickLoop]
    by_cases hs : tickSkip active i v = true
    · simp [hs, ih]
    · by_cases hn : v.triggerIsNull = true <;>
        simp [hs, hn, ih, modifyAt_length]

theorem tick_fst_activeView (cfg : ShiftConfig) (st : ShiftState) (th : Bool) :
    (ShiftMatcher.tick cfg st th).1.activeView = st.activeView := by
  unfold ShiftMatcher.tick
  by_cases hc : st.changed = true <;> simp [hc]

theorem tick_fst_sustained (cfg : ShiftConfig) (st : ShiftState) (th : Bool) :
    (ShiftMatcher.tick cfg st th).1.sustained = st.sustained := by
  unfold ShiftMatcher.tick
  by_cases hc : st.changed = true <;> simp [hc]

theorem tick_fst_triggers_length (cfg : ShiftConfig) (st : ShiftState) (th : Bool) :
    (ShiftMatcher.tick cfg st th).1.triggers.length = st.triggers.length := by
  unfold ShiftMatcher.tick
  by_cases hc : st.changed = true <;> simp [hc, tickLoop_fst_length]

theorem tick_inv (cfg : ShiftConfig) (st : ShiftState) (th : Bool) (hInv : Inv cfg st) :
    Inv cfg (ShiftMatcher.tick cfg st th).1 := by
  obtain ⟨hA, hS, hL⟩ := hInv
  refine ⟨?_, ?_, ?_⟩
  · intro i hi
    exact hA i (by rwa [tick_fst_activeView] at hi)
  · intro hs
    rw [tick_fst_sustained] at hs
    rw [tick_fst_activeView]
    exact hS hs
  · rw [tick_fst_triggers_length, hL]

theorem tickLoop_mem (active : Option Nat) (th : Bool) :
    ∀ (l : List ShiftView) (j k : Nat) (ts : List TriggerState) (hk : k < l.length),
      tickSkip active (j + k) l[k] = false →
      (j + k, th) ∈ (tickLoop active th j l ts).2 := by
  intro l
  induction l with
  | nil => intro j k ts hk; simp at hk
  | cons v vs ih =>
    intro j k ts hk hns
    cases k with
    | zero =>
      simp only [Nat.add_zero, List.getElem_cons_zero] at hns
      simp only [Nat.add_zero, tickLoop, hns]
      simp
    | succ m =>
      have hk' : m < vs.length := by simpa using hk
      have harith : j + (m + 1) = (j + 1) + m := by omega
      have hns' : tickSkip active ((j + 1) + m) vs[m] = false := by
        rw [← harith]
        simpa only [List.getElem_cons_succ] using hns
      have hmem := ih (j + 1) m ts hk' hns'
      rw [harith]
      simp only [tickLoop]
      by_cases hs : tickSkip active j v = true
      · simp only [hs, if_true]
        exact ih (j + 1) m ts hk' hns'
      · simp only [hs, if_false, Bool.false_eq_true]
        exact List.mem_cons_of_mem _ (ih (j + 1) m _ hk' hns')

theorem tickLoop_cons_of_skip (active : Option Nat) (th : Bool) (j : Nat) (v : ShiftView)
    (vs : List ShiftView) (ts : List TriggerState) (hs : tickSkip active j v = true) :
    tickLoop active th j (v :: vs) ts = tickLoop active th (j + 1) vs ts := by
  simp [tickLoop, hs]

theorem tickLoop_cons_snd_of_go (active : Option Nat) (th : Bool) (j : Nat) (v : ShiftView)
    (vs : List ShiftView) (ts : List TriggerState) (hs : tickSkip active j v = false) :
    (tickLoop active th j (v :: vs) ts).2 =
      (j, th) ::
        (tickLoop active th (j + 1) vs
          (if v.triggerIsNull then
            modifyAt
              (fun t =>
                { t with
                   color := if active = some j then Color.ENABLED else Color.DISABLED })
              j ts
          else ts)).2 := by
  simp [tickLoop, hs]

theorem tickLoop_mem_iff (active : Option Nat) (th : Bool) :
    ∀ (l : List ShiftView) (j : Nat) (ts : List TriggerState) (p : Nat × Bool),
      p ∈ (tickLoop active th j l ts).2 ↔
        ∃ k, ∃ hk : k < l.length,
          p = (j + k, th) ∧ tickSkip active (j + k) l[k] = false := by
  intro l
  induction l with
  | nil =>
    intro j ts p
    simp [tickLoop]
  | cons v vs ih =>
    intro j ts p
    by_cases hs : tickSkip active j v = true
    · rw [tickLoop_cons_of_skip active th j v vs ts hs, ih (j + 1) ts p]
      constructor
      · rintro ⟨k, hk, hp, hns⟩
        refine ⟨k + 1, by simpa using Nat.succ_lt_succ hk, ?_, ?_⟩
        · rw [hp]
          congr 1
          omega
        · have harith : j + (k + 1) = (j + 1) + k := by omega
          rw [harith]
          simpa only [List.getElem_cons_succ] using hns
      · rintro ⟨k, hk, hp, hns⟩
        cases k with
        | zero =>
          simp only [Nat.add_zero, List.getElem_cons_zero] at hns
          exact absurd hs (by simp [hns])
        | succ m =>
          have hm : m < vs.length := by simpa using hk
          refine ⟨m, hm, ?_, ?_⟩
          · rw [hp]
            congr 1
            omega
          · have harith : (j + 1) + m = j + (m + 1) := by omega
            rw [harith]
            simpa only [List.getElem_cons_succ] using hns
    · have hsf : tickSkip active j v = false := by simpa using hs
      rw [tickLoop_cons_snd_of_go active th j v vs ts hsf, List.mem_cons, ih]
      constructor
      · rintro (hp | ⟨k, hk, hpe, hns⟩)
        · exact ⟨0, by simp, by simpa using hp, by simpa using hsf⟩
        · refine ⟨k + 1, by simpa using Nat.succ_lt_succ hk, ?_, ?_⟩
          · rw [hpe]
            congr 1
            omega
          · have harith : j + (k + 1) = (j + 1) + k := by omega
            rw [harith]
            simpa only [List.getElem_cons_succ] using hns
      · rintro ⟨k, hk, hpe, hns⟩
        cases k with
        | zero =>
          exact Or.inl (by simpa using hpe)
        | succ m =>
          have hm : m < vs.length := by simpa using hk
          refine Or.inr ⟨m, hm, ?_, ?_⟩
          · rw [hpe]
            congr 1
            omega
          · have harith : (j + 1) + m = j + (m + 1) := by omega
            rw [harith]
            simpa only [List.getElem_cons_succ] using hns

/-!
Claim theorems.
-/

/-- C4: starting from the initial state, every sequence of `matchEvent`
and `tick` calls preserves the invariant that at most one view is active
(the single optional `activeView`, indexing a registered view) and that
`sustained = true` implies the active view is not `none`. -/
theorem shift_matcher_invariant (cfg : ShiftConfig) (st : ShiftState)
    (h : Reachable cfg st) : Inv cfg st := by
  induction h with
  | init ts hlen =>
    exact ⟨fun i hi => by simp [initState] at hi, fun hs => by simp [initState] at hs, hlen⟩
  | matchStep st e hr ih => exact matchEvent_inv cfg st e ih
  | tickStep st th hr ih => exact tick_inv cfg st th ih

/-- Witness for C4: the invariant holds at the initial state of the
concrete one-view configuration `cfg4`. -/
theorem shift_matcher_invariant_witness : Inv cfg4 (initState ts4) :=
  shift_matcher_invariant cfg4 (initState ts4) (Reachable.init ts4 rfl)

/-- C6: while the view at index `i` is active, an event that only the
trigger of a different view `w` with `disable_in_other_views = true`
matches is never tested for activation: the matcher state is entirely
unchanged (in particular `w` does not become active and view `i` stays
active). -/
theorem disabled_view_not_activated (cfg : ShiftConfig) (st : ShiftState) (e : Event)
    (i : Nat) (pre post : List ShiftView) (w : ShiftView)
    (hact : st.activeView = some i)
    (hne : pre.length ≠ i)
    (hviews : cfg.views = pre ++ w :: post)
    (hdis : w.disable_in_other_views = true)
    (hpre : ∀ v ∈ pre, v.triggerMatch e = none)
    (hpost : ∀ v ∈ post, v.triggerMatch e = none) :
    (ShiftMatcher.matchEvent cfg st e).2 = st ∧
    (ShiftMatcher.matchEvent cfg st e).2.activeView = some i := by
  have hskip : skipView st pre.length w = true := by
    simp only [skipView, hact, hdis, Option.isSome_some, Bool.true_and, Bool.and_true]
    simp only [bne_iff_ne, ne_eq, Option.some.injEq]
    omega
  have hloop : matchLoop st e 0 cfg.views = none := by
    rw [hviews, matchLoop_append st e pre (w :: post) hpre 0]
    simp only [Nat.zero_add]
    rw [matchLoop_cons_skip st e pre.length w post hskip]
    exact matchLoop_none_of_nomatch st e post hpost (pre.length + 1)
  have hst := matchEvent_snd_of_loop_none cfg st e hloop
  exact ⟨hst, by rw [hst, hact]⟩

/-- Witness for C6: in `cfgB` with view 0 active, event 31 (which only
the disabled view 1's trigger matches) leaves the state unchanged. -/
theorem disabled_view_not_activated_witness :
    (ShiftMatcher.matchEvent cfgB stB 31).2 = stB ∧
    (ShiftMatcher.matchEvent cfgB stB 31).2.activeView = some 0 :=
  disabled_view_not_activated cfgB stB 31 0 [vB0] [] vB1 rfl (by decide) rfl rfl
    (by intro v hv; rw [List.mem_singleton.mp hv]; rfl)
    (by intro v hv; cases hv)

/-- C7: with the view at index `pre.length` active, a non-lift event on
that view's trigger is swallowed: `matchEvent` returns the null control's
match and leaves the matcher state (in particular `activeView` and
`sustained`) unchanged. -/
theorem press_while_active_swallowed (cfg : ShiftConfig) (st : ShiftState) (e : Event)
    (pre post : List ShiftView) (v : ShiftView) (c : ControlEvent)
    (hviews : cfg.views = pre ++ v :: post)
    (hpre : ∀ w ∈ pre, w.triggerMatch e = none)
    (hact : st.activeView = some pre.length)
    (hm : v.triggerMatch e = some c)
    (h0 : c.value ≠ 0) :
    ShiftMatcher.matchEvent cfg st e = (some MatchResult.nullEvent, st) := by
  have hskip : skipView st pre.length v = false := by
    simp [skipView, hact]
  rw [matchEvent_of_claim cfg st e pre post v c hviews hpre hskip hm,
    handleTrigger_null st pre.length v c h0 hact]

/-- Witness for C7: in `cfgA` with view 0 active, the press event 12 on
the trigger yields the null match and an unchanged state. -/
theorem press_while_active_swallowed_witness :
    ShiftMatcher.matchEvent cfgA stA2 12 = (some MatchResult.nullEvent, stA2) :=
  press_while_active_swallowed cfgA stA2 12 [] [] vA { value := 1, double := false }
    rfl (by intro w hw; cases hw) rfl rfl (by norm_num)

/-- C8: a single (non-double, non-lift) press on the trigger of a
non-active view with `ignore_single_press = true` returns the raw trigger
match and leaves the matcher state entirely unchanged: `activeView`,
`sustained`, the changed flag and the trigger colors are all those of the
pre-call state. -/
theorem ignore_single_press_passthrough (cfg : ShiftConfig) (st : ShiftState) (e : Event)
    (pre post : List ShiftView) (v : ShiftView) (c : ControlEvent)
    (hviews : cfg.views = pre ++ v :: post)
    (hpre : ∀ w ∈ pre, w.triggerMatch e = none)
    (hskip : skipView st pre.length v = false)
    (hact : st.activeView ≠ some pre.length)
    (hm : v.triggerMatch e = some c)
    (h0 : c.value ≠ 0)
    (hd : c.double = false)
    (hign : v.ignore_single_press = true) :
    ShiftMatcher.matchEvent cfg st e = (some (MatchResult.triggerEvent pre.length c), st) := by
  rw [matchEvent_of_claim cfg st e pre post v c hviews hpre hskip hm,
    handleTrigger_ignore st pre.length v c h0 hact hd hign]

/-- Witness for C8: in `cfgC` at the initial state, the single press
event 40 on the `ignore_single_press` view's trigger is passed through
with the state unchanged. -/
theorem ignore_single_press_passthrough_witness :
    ShiftMatcher.matchEvent cfgC (initState ts4) 40 =
      (some (MatchResult.triggerEvent 0 { value := 1, double := false }), initState ts4) :=
  ignore_single_press_passthrough cfgC (initState ts4) 40 [] [] vC
    { value := 1, double := false } rfl (by intro w hw; cases hw) rfl (by decide) rfl
    (by norm_num) rfl rfl

/-- C3: from a state with no active view, a single (non-double) press on
the trigger of a view with `ignore_single_press = false` activates that
view and returns the trigger match, and a subsequent lift of the trigger
deactivates it again: the press/lift round trip ends with
`activeView = none`. -/
theorem press_lift_round_trip (cfg : ShiftConfig) (st : ShiftState) (e1 e2 : Event)
    (pre post : List ShiftView) (v : ShiftView) (c1 c2 : ControlEvent)
    (hviews : cfg.views = pre ++ v :: post)
    (hpre1 : ∀ w ∈ pre, w.triggerMatch e1 = none)
    (hpre2 : ∀ w ∈ pre, w.triggerMatch e2 = none)
    (hact : st.activeView = none)
    (hsus : st.sustained = false)
    (hign : v.ignore_single_press = false)
    (hm1 : v.triggerMatch e1 = some c1) (h1v : c1.value ≠ 0) (h1d : c1.double = false)
    (hm2 : v.triggerMatch e2 = some c2) (h2v : c2.value = 0) :
    (ShiftMatcher.matchEvent cfg st e1).1 = some (MatchResult.triggerEvent pre.length c1) ∧
    (ShiftMatcher.matchEvent cfg st e1).2.activeView = some pre.length ∧
    (ShiftMatcher.matchEvent cfg (ShiftMatcher.matchEvent cfg st e1).2 e2).2.activeView
      = none := by
  have hskip1 : skipView st pre.length v = false := by
    simp [skipView, hact]
  have hne1 : st.activeView ≠ some pre.length := by
    rw [hact]; simp
  have h1 := matchEvent_of_claim cfg st e1 pre post v c1 hviews hpre1 hskip1 hm1
  rw [handleTrigger_open st pre.length v c1 h1v hne1 h1d hign] at h1
  have hs1a : (ShiftMatcher.matchEvent cfg st e1).2.activeView = some pre.length := by
    rw [h1]
  have hs1s : (ShiftMatcher.matchEvent cfg st e1).2.sustained = false := by
    rw [h1]; exact hsus
  have hskip2 : skipView (ShiftMatcher.matchEvent cfg st e1).2 pre.length v = false := by
    simp [skipView, hs1a]
  have h2 := matchEvent_of_claim cfg (ShiftMatcher.matchEvent cfg st e1).2 e2
    pre post v c2 hviews hpre2 hskip2 hm2
  rw [handleTrigger_lift_close _ pre.length v c2 h2v hs1a hs1s] at h2
  exact ⟨by rw [h1], hs1a, by rw [h2]⟩

/-- Witness for C3: in `cfgA` from the initial state, the single press
event 12 activates view 0 and the lift event 11 deactivates it again. -/
theorem press_lift_round_trip_witness :
    (ShiftMatcher.matchEvent cfgA (initState ts4) 12).1 =
      some (MatchResult.triggerEvent 0 { value := 1, double := false }) ∧
    (ShiftMatcher.matchEvent cfgA (initState ts4) 12).2.activeView = some 0 ∧
    (ShiftMatcher.matchEvent cfgA
        (ShiftMatcher.matchEvent cfgA (initState ts4) 12).2 11).2.activeView = none :=
  press_lift_round_trip cfgA (initState ts4) 12 11 [] [] vA
    { value := 1, double := false } { value := 0, double := false } rfl
    (by intro w hw; cases hw) (by intro w hw; cases hw) rfl rfl rfl
    rfl (by norm_num) rfl rfl rfl

/-- C2: a double press on a non-active view's trigger puts the matcher in
the sustained state with that view active; a single lift afterwards does
not deactivate the view but clears the sustained flag, sets the trigger's
value to full and its color to enabled; a subsequent press is swallowed
(null match, state unchanged) and the following lift deactivates the view
and sets the trigger's color to disabled. -/
theorem double_press_sustain_cycle (cfg : ShiftConfig) (st : ShiftState)
    (e1 e2 e3 e4 : Event) (pre post : List ShiftView) (v : ShiftView)
    (c1 c2 c3 c4 : ControlEvent)
    (hviews : cfg.views = pre ++ v :: post)
    (hpre1 : ∀ w ∈ pre, w.triggerMatch e1 = none)
    (hpre2 : ∀ w ∈ pre, w.triggerMatch e2 = none)
    (hpre3 : ∀ w ∈ pre, w.triggerMatch e3 = none)
    (hpre4 : ∀ w ∈ pre, w.triggerMatch e4 = none)
    (hskip : skipView st pre.length v = false)
    (hact : st.activeView ≠ some pre.length)
    (hlen : pre.length < st.triggers.length)
    (hm1 : v.triggerMatch e1 = some c1) (h1v : c1.value ≠ 0) (h1d : c1.double = true)
    (hm2 : v.triggerMatch e2 = some c2) (h2v : c2.value = 0)
    (hm3 : v.triggerMatch e3 = some c3) (h3v : c3.value ≠ 0)
    (hm4 : v.triggerMatch e4 = some c4) (h4v : c4.value = 0) :
    (ShiftMatcher.matchEvent cfg st e1).2.activeView = some pre.length ∧
    (ShiftMatcher.matchEvent cfg st e1).2.sustained = true ∧
    (ShiftMatcher.matchEvent cfg (ShiftMatcher.matchEvent cfg st e1).2 e2).2.activeView
      = some pre.length ∧
    (ShiftMatcher.matchEvent cfg (ShiftMatcher.matchEvent cfg st e1).2 e2).2.sustained
      = false ∧
    ((ShiftMatcher.matchEvent cfg (ShiftMatcher.matchEvent cfg st e1).2 e2).2.triggers[
        pre.length]? = some { value := 1, color := Color.ENABLED }) ∧
    (ShiftMatcher.matchEvent cfg
        (ShiftMatcher.matchEvent cfg (ShiftMatcher.matchEvent cfg st e1).2 e2).2 e3).1
      = some MatchResult.nullEvent ∧
    (ShiftMatcher.matchEvent cfg
        (ShiftMatcher.matchEvent cfg (ShiftMatcher.matchEvent cfg st e1).2 e2).2 e3).2
      = (ShiftMatcher.matchEvent cfg (ShiftMatcher.matchEvent cfg st e1).2 e2).2 ∧
    (ShiftMatcher.matchEvent cfg
        (ShiftMatcher.matchEvent cfg
          (ShiftMatcher.matchEvent cfg (ShiftMatcher.matchEvent cfg st e1).2 e2).2 e3).2
        e4).2.activeView = none ∧
    ((ShiftMatcher.matchEvent cfg
        (ShiftMatcher.matchEvent cfg
          (ShiftMatcher.matchEvent cfg (ShiftMatcher.matchEvent cfg st e1).2 e2).2 e3).2
        e4).2.triggers[pre.length]?).map TriggerState.color = some Color.DISABLED := by
  set i := pre.length with hidef
  -- step 1: double press opens the view sustained
  have h1 := matchEvent_of_claim cfg st e1 pre post v c1 hviews hpre1 hskip hm1
  rw [handleTrigger_double st i v c1 h1v hact h1d] at h1
  set s1 := (ShiftMatcher.matchEvent cfg st e1).2 with hs1def
  have hs1 : s1 =
      { st with
         sustained := true, activeView := some i, changed := true,
         triggers := modifyAt (fun t => { t with color := Color.ENABLED }) i st.triggers } := by
    rw [hs1def, h1]
  have hs1a : s1.activeView = some i := by rw [hs1]
  have hs1s : s1.sustained = true := by rw [hs1]
  -- step 2: lift while sustained clears the flag and re-enables the trigger
  have hskip2 : skipView s1 i v = false := by simp [skipView, hs1a]
  have h2 := matchEvent_of_claim cfg s1 e2 pre post v c2 hviews hpre2 hskip2 hm2
  rw [handleTrigger_lift_desustain s1 i v c2 h2v hs1a hs1s] at h2
  set s2 := (ShiftMatcher.matchEvent cfg s1 e2).2 with hs2def
  have hs2 : s2 =
      { s1 with
         sustained := false,
         triggers := modifyAt (fun t => { t with value := 1, color := Color.ENABLED })
           i s1.triggers } := by
    rw [hs2def, h2]
  have hs2a : s2.activeView = some i := by rw [hs2]; exact hs1a
  have hs2s : s2.sustained = false := by rw [hs2]
  have hs2t : s2.triggers[i]? = some { value := 1, color := Color.ENABLED } := by
    rw [hs2]
    show (modifyAt _ i s1.triggers)[i]? = _
    rw [getElem?_modifyAt_self]
    have hl1 : s1.triggers.length = st.triggers.length := by
      rw [hs1]
      show (modifyAt _ i st.triggers).length = _
      rw [modifyAt_length]
    have : i < s1.triggers.length := by omega
    rw [List.getElem?_eq_getElem this]
    rfl
  -- step 3: press while active is swallowed by the null control
  have hskip3 : skipView s2 i v = false := by simp [skipView, hs2a]
  have h3 := matchEvent_of_claim cfg s2 e3 pre post v c3 hviews hpre3 hskip3 hm3
  rw [handleTrigger_null s2 i v c3 h3v hs2a] at h3
  have h3fst : (ShiftMatcher.matchEvent cfg s2 e3).1 = some MatchResult.nullEvent := by
    rw [h3]
  have h3snd : (ShiftMatcher.matchEvent cfg s2 e3).2 = s2 := by rw [h3]
  -- step 4: the next lift closes the view and disables the trigger
  have h4 := matchEvent_of_claim cfg s2 e4 pre post v c4 hviews hpre4
    (by simp [skipView, hs2a]) hm4
  rw [handleTrigger_lift_close s2 i v c4 h4v hs2a hs2s] at h4
  have h4a : (ShiftMatcher.matchEvent cfg s2 e4).2.activeView = none := by rw [h4]
  have h4c : ((ShiftMatcher.matchEvent cfg s2 e4).2.triggers[i]?).map TriggerState.color
      = some Color.DISABLED := by
    rw [h4]
    show ((modifyAt _ i s2.triggers)[i]?).map _ = _
    rw [getElem?_modifyAt_self, hs2t]
    rfl
  rw [h3snd]
  exact ⟨hs1a, hs1s, hs2a, hs2s, hs2t, h3fst, rfl, h4a, h4c⟩

/-- Witness for C2: in `cfgA` from the initial state, the double press
event 10, the lift 11, the press 12 and the lift 11 walk through the
sustain cycle. -/
theorem double_press_sustain_cycle_witness :
    (ShiftMatcher.matchEvent cfgA (initState ts4) 10).2.activeView = some 0 ∧
    (ShiftMatcher.matchEvent cfgA (initState ts4) 10).2.sustained = true ∧
    (ShiftMatcher.matchEvent cfgA
        (ShiftMatcher.matchEvent cfgA (initState ts4) 10).2 11).2.activeView = some 0 ∧
    (ShiftMatcher.matchEvent cfgA
        (ShiftMatcher.matchEvent cfgA (initState ts4) 10).2 11).2.sustained = false ∧
    ((ShiftMatcher.matchEvent cfgA
        (ShiftMatcher.matchEvent cfgA (initState ts4) 10).2 11).2.triggers[0]?
      = some { value := 1, color := Color.ENABLED }) ∧
    (ShiftMatcher.matchEvent cfgA
        (ShiftMatcher.matchEvent cfgA
          (ShiftMatcher.matchEvent cfgA (initState ts4) 10).2 11).2 12).1
      = some MatchResult.nullEvent ∧
    (ShiftMatcher.matchEvent cfgA
        (ShiftMatcher.matchEvent cfgA
          (ShiftMatcher.matchEvent cfgA (initState ts4) 10).2 11).2 12).2
      = (ShiftMatcher.matchEvent cfgA
          (ShiftMatcher.matchEvent cfgA (initState ts4) 10).2 11).2 ∧
    (ShiftMatcher.matchEvent cfgA
        (ShiftMatcher.matchEvent cfgA
          (ShiftMatcher.matchEvent cfgA
            (ShiftMatcher.matchEvent cfgA (initState ts4) 10).2 11).2 12).2
        11).2.activeView = none ∧
    ((ShiftMatcher.matchEvent cfgA
        (ShiftMatcher.matchEvent cfgA
          (ShiftMatcher.matchEvent cfgA
            (ShiftMatcher.matchEvent cfgA (initState ts4) 10).2 11).2 12).2
        11).2.triggers[0]?).map TriggerState.color = some Color.DISABLED :=
  double_press_sustain_cycle cfgA (initState ts4) 10 11 12 11 [] [] vA
    { value := 1, double := true } { value := 0, double := false }
    { value := 1, double := false } { value := 0, double := false }
    rfl (by intro w hw; cases hw) (by intro w hw; cases hw) (by intro w hw; cases hw)
    (by intro w hw; cases hw) rfl (by decide) (by decide)
    rfl (by norm_num) rfl rfl rfl rfl (by norm_num) rfl rfl

/-- C1: evaluation of the code at the failing input.  In `cfgD` the
active view (index 0) has `allow_fallback_match = false` and its
sub-matcher does not match event 99, so by the claim `matchEvent` should
return `none`; but the fallback branch reads the loop variable left over
from the trigger-scanning loop — the LAST registered view, whose flag is
`true` — and returns the main matcher's match. -/
theorem fallback_uses_last_view :
    stD.activeView = some 0 ∧
    vD0.allow_fallback_match = false ∧
    vD0.viewMatch 99 = none ∧
    vD1.allow_fallback_match = true ∧
    cfgD.mainMatch 99 = some 7 ∧
    (ShiftMatcher.matchEvent cfgD stD 99).1 = some (MatchResult.mainEvent 7) :=
  ⟨rfl, rfl, rfl, rfl, rfl, rfl⟩

/-- C5: counterexample to the claim as stated.  In `cfgE` the single
registered view has `disable_in_other_views = true` and no view is
active, so its trigger is skipped by the tick loop: although the dirty
flag is set, the tick does not refresh every registered view's trigger —
view 0's trigger receives no `doTick` call at all. -/
theorem tick_not_all_triggers_refreshed :
    stE.changed = true ∧
    0 < cfgE.views.length ∧
    ¬ (0, true) ∈ (ShiftMatcher.tick cfgE stE false).2.triggerTicks := by
  refine ⟨rfl, by decide, ?_⟩
  have h : (ShiftMatcher.tick cfgE stE false).2.triggerTicks = [] := rfl
  rw [h]
  simp

/-- C5 (amended): on EVERY tick exactly one sub-matcher is ticked — the
active view's sub-matcher if a view is active, otherwise the main
matcher — and the dirty flag ends up cleared; when the dirty flag was
set, the tick is thorough and every registered view's trigger receives a
thorough `doTick` EXCEPT the views with `disable_in_other_views = true`
that are not active: those skipped triggers receive no `doTick` call at
all. -/
theorem tick_refresh_amended (cfg : ShiftConfig) (st : ShiftState) (th : Bool) (i : Nat)
    (hi : i < cfg.views.length) :
    (ShiftMatcher.tick cfg st th).1.changed = false ∧
    (ShiftMatcher.tick cfg st th).2.sub =
      (match st.activeView with
       | none => SubTicked.main
       | some a => SubTicked.view a) ∧
    (st.changed = true → (ShiftMatcher.tick cfg st th).2.subThorough = true) ∧
    (st.changed = true → tickSkip st.activeView i cfg.views[i] = false →
      (i, true) ∈ (ShiftMatcher.tick cfg st th).2.triggerTicks) ∧
    (tickSkip st.activeView i cfg.views[i] = true →
      ∀ b : Bool, (i, b) ∉ (ShiftMatcher.tick cfg st th).2.triggerTicks) := by
  refine ⟨?_, ?_, ?_, ?_, ?_⟩
  · unfold ShiftMatcher.tick
    cases hch : st.changed <;> simp [hch]
  · unfold ShiftMatcher.tick
    cases hch : st.changed <;> cases hA : st.activeView <;> simp [hch, hA]
  · intro hch
    unfold ShiftMatcher.tick
    simp [hch]
  · intro hch hns
    unfold ShiftMatcher.tick
    simp only [hch, if_true]
    have := tickLoop_mem st.activeView true cfg.views 0 i st.triggers hi
      (by simpa using hns)
    simpa using this
  · intro hsk b hmem
    cases hch : st.changed with
    | true =>
      have hmem' : (i, b) ∈ (tickLoop st.activeView true 0 cfg.views st.triggers).2 := by
        simpa [ShiftMatcher.tick, hch] using hmem
      rw [tickLoop_mem_iff st.activeView true cfg.views 0 st.triggers (i, b)] at hmem'
      obtain ⟨k, hk, hpe, hns⟩ := hmem'
      have hik : i = k := by simpa using congrArg Prod.fst hpe
      subst hik
      simp only [Nat.zero_add] at hns
      exact Bool.false_ne_true (hns.symm.trans hsk)
    | false =>
      have hmem' : (i, b) ∈ (tickLoop st.activeView th 0 cfg.views st.triggers).2 := by
        simpa [ShiftMatcher.tick, hch] using hmem
      rw [tickLoop_mem_iff st.activeView th cfg.views 0 st.triggers (i, b)] at hmem'
      obtain ⟨k, hk, hpe, hns⟩ := hmem'
      have hik : i = k := by simpa using congrArg Prod.fst hpe
      subst hik
      simp only [Nat.zero_add] at hns
      exact Bool.false_ne_true (hns.symm.trans hsk)

/-- Witness for C5 (amended): in `cfg4` from the (dirty) initial state,
view 0's trigger receives a thorough tick, the dirty flag is cleared and
the main matcher is the one sub-matcher ticked; in `cfgE` (whose view 0
is disabled-in-other-views and not active) view 0's trigger gets no
`doTick` call. -/
theorem tick_refresh_amended_witness :
    (ShiftMatcher.tick cfg4 (initState ts4) false).1.changed = false ∧
    (ShiftMatcher.tick cfg4 (initState ts4) false).2.sub = SubTicked.main ∧
    (ShiftMatcher.tick cfg4 (initState ts4) false).2.subThorough = true ∧
    (0, true) ∈ (ShiftMatcher.tick cfg4 (initState ts4) false).2.triggerTicks ∧
    (0, true) ∉ (ShiftMatcher.tick cfgE stE false).2.triggerTicks := by
  obtain ⟨h1, h2, h3, h4, _⟩ := tick_refresh_amended cfg4 (initState ts4) false 0 (by decide)
  obtain ⟨_, _, _, _, h5⟩ := tick_refresh_amended cfgE stE false 0 (by decide)
  exact ⟨h1, h2, h3 rfl, h4 rfl rfl, h5 rfl true⟩

/-- C9: `pedalCallback` on a non-VST plugin index raises `TypeError` when
the strategy was constructed with `raise_on_error = true` and returns
`False` otherwise, in both cases performing no parameter write; on a VST
index a recognized pedal type performs exactly one parameter write and
returns `True`, and any other pedal type raises `NotImplementedError`. -/
theorem pedal_callback_spec (raiseOnError : Bool) (isVst : PluginIndex → Bool)
    (value : ℚ) (index : PluginIndex) (t_ped : PedalType) :
    (isVst index = false →
      (raiseOnError = true →
        pedalCallback raiseOnError isVst value index t_ped
          = Except.error PedalError.typeError) ∧
      (raiseOnError = false →
        pedalCallback raiseOnError isVst value index t_ped = Except.ok (false, []))) ∧
    (isVst index = true →
      (t_ped ≠ PedalType.otherPedal →
        ∃ w : ParamWrite,
          pedalCallback raiseOnError isVst value index t_ped = Except.ok (true, [w])) ∧
      (t_ped = PedalType.otherPedal →
        pedalCallback raiseOnError isVst value index t_ped
          = Except.error PedalError.notImplementedError)) := by
  constructor
  · intro hv
    constructor
    · intro hr; simp [pedalCallback, hv, hr]
    · intro hr; simp [pedalCallback, hv, hr]
  · intro hv
    constructor
    · intro hne
      cases t_ped with
      | SustainPedal =>
        exact ⟨{ value := value, paramIndex := PARAM_CC_START + SUSTAIN, index := index },
          by simp [pedalCallback, hv]⟩
      | SostenutoPedal =>
        exact ⟨{ value := value, paramIndex := PARAM_CC_START + SOSTENUTO, index := index },
          by simp [pedalCallback, hv]⟩
      | SoftPedal =>
        exact ⟨{ value := value, paramIndex := PARAM_CC_START + SOFT, index := index },
          by simp [pedalCallback, hv]⟩
      | otherPedal => exact absurd rfl hne
    · intro he
      subst he
      simp [pedalCallback, hv]

/-- Witness for C9: concrete calls of `pedalCallback` exercising the
non-VST branches, a recognized pedal on a VST, and an unrecognized pedal
on a VST. -/
theorem pedal_callback_spec_witness :
    pedalCallback true (fun _ => false) 1 [0] PedalType.SustainPedal
      = Except.error PedalError.typeError ∧
    pedalCallback false (fun _ => false) 1 [0] PedalType.SustainPedal
      = Except.ok (false, []) ∧
    (∃ w : ParamWrite,
      pedalCallback true (fun _ => true) 1 [0] PedalType.SustainPedal
        = Except.ok (true, [w])) ∧
    pedalCallback true (fun _ => true) 1 [0] PedalType.otherPedal
      = Except.error PedalError.notImplementedError :=
  ⟨((pedal_callback_spec true (fun _ => false) 1 [0] PedalType.SustainPedal).1 rfl).1 rfl,
   ((pedal_callback_spec false (fun _ => false) 1 [0] PedalType.SustainPedal).1 rfl).2 rfl,
   ((pedal_callback_spec true (fun _ => true) 1 [0] PedalType.SustainPedal).2 rfl).1
     (by decide),
   ((pedal_callback_spec true (fun _ => true) 1 [0] PedalType.otherPedal).2 rfl).2 rfl⟩

theorem do_filter_pass (pred : UnsafeIndex → Bool) (cb : UnsafeIndex → Option Nat)
    (idx : UnsafeIndex) (h : pred idx = true) : do_filter pred cb idx = cb idx := by
  simp [do_filter, h]

theorem do_filter_blocked (pred : UnsafeIndex → Bool) (cb : UnsafeIndex → Option Nat)
    (idx : UnsafeIndex) (h : pred idx = false) : do_filter pred cb idx = Option.none := by
  simp [do_filter, h]

/-- C10: each index filter predicate holds exactly for its documented
shape (tuple, 1-tuple, 2-tuple, int, non-None), and a callback decorated
with a filter runs exactly when the predicate holds for the supplied
index, and is blocked otherwise. -/
theorem index_filters_spec (idx : UnsafeIndex) (cb : UnsafeIndex → Option Nat) :
    (toPluginIndex idx = true ↔ ∃ l, idx = UnsafeIndex.tup l) ∧
    (toGeneratorIndex idx = true ↔ ∃ x, idx = UnsafeIndex.tup [x]) ∧
    (toEffectIndex idx = true ↔ ∃ x y, idx = UnsafeIndex.tup [x, y]) ∧
    (toWindowIndex idx = true ↔ ∃ w, idx = UnsafeIndex.window w) ∧
    (toSafeIndex idx = true ↔ idx ≠ UnsafeIndex.none) ∧
    (toPluginIndex idx = true → do_filter toPluginIndex cb idx = cb idx) ∧
    (toPluginIndex idx = false → do_filter toPluginIndex cb idx = Option.none) ∧
    (toGeneratorIndex idx = true → do_filter toGeneratorIndex cb idx = cb idx) ∧
    (toGeneratorIndex idx = false → do_filter toGeneratorIndex cb idx = Option.none) ∧
    (toEffectIndex idx = true → do_filter toEffectIndex cb idx = cb idx) ∧
    (toEffectIndex idx = false → do_filter toEffectIndex cb idx = Option.none) ∧
    (toWindowIndex idx = true → do_filter toWindowIndex cb idx = cb idx) ∧
    (toWindowIndex idx = false → do_filter toWindowIndex cb idx = Option.none) ∧
    (toSafeIndex idx = true → do_filter toSafeIndex cb idx = cb idx) ∧
    (toSafeIndex idx = false → do_filter toSafeIndex cb idx = Option.none) := by
  refine ⟨?_, ?_, ?_, ?_, ?_,
    do_filter_pass toPluginIndex cb idx, do_filter_blocked toPluginIndex cb idx,
    do_filter_pass toGeneratorIndex cb idx, do_filter_blocked toGeneratorIndex cb idx,
    do_filter_pass toEffectIndex cb idx, do_filter_blocked toEffectIndex cb idx,
    do_filter_pass toWindowIndex cb idx, do_filter_blocked toWindowIndex cb idx,
    do_filter_pass toSafeIndex cb idx, do_filter_blocked toSafeIndex cb idx⟩
  · cases idx <;> simp [toPluginIndex]
  · cases idx <;> simp [toGeneratorIndex, List.length_eq_one]
  · cases idx <;> simp [toEffectIndex, List.length_eq_two]
  · cases idx <;> simp [toWindowIndex]
  · cases idx <;> simp [toSafeIndex]

/-- Witness for C10: the filters and the decorated callback evaluated on
the concrete index `(3,)`. -/
theorem index_filters_spec_witness :
    toPluginIndex (UnsafeIndex.tup [3]) = true ∧
    do_filter toGeneratorIndex (fun _ => some 5) (UnsafeIndex.tup [3]) = some 5 ∧
    do_filter toEffectIndex (fun _ => some 5) (UnsafeIndex.tup [3]) = Option.none := by
  obtain ⟨hA, hB, hC, hD, hE, hF1, hF2, hG1, hG2, hH1, hH2, hI1, hI2, hJ1, hJ2⟩ :=
    index_filters_spec (UnsafeIndex.tup [3]) (fun _ => some 5)
  exact ⟨hA.mpr ⟨[3], rfl⟩, hG1 rfl, hH2 rfl⟩

end UCS
